import Mathlib

/-!
Shallow embedding of the `visualize` tool of this repository
(`src/visualize/src/convert_to_geotiff.py` and
`src/visualize/src/plot_complex_data.py`).

Filesystem-dependent behaviour is made explicit: `os.listdir` becomes a
`List String` argument, directory/file existence tests become boolean
oracles, and `os.makedirs` threads an explicit list of existing
directories.  Raster handles are replaced by records carrying exactly the
metadata the code reads (affine transform, bounds, coordinate reference
system, band layout).  Fallible Python code returns `Except String`.
-/

/-! ## Python string and path primitives -/

/-- Python truthiness of an optional string argument (`if s:`): `None` and
the empty string are falsy, every other string is truthy. -/
def pyTruthy : Option String → Bool
  | none => false
  | some s => !(s == "")

/-- Python `s.endswith(suffix)`. -/
def pyEndsWith (s suffix : String) : Bool :=
  List.isSuffixOf suffix.data s.data

/-- Whether a character list starts with the three characters `dem`. -/
def startsWithDem : List Char → Bool
  | 'd' :: 'e' :: 'm' :: _ => true
  | _ => false

/-- Substring scan behind `containsDem`. -/
def containsDemChars : List Char → Bool
  | [] => false
  | c :: rest => startsWithDem (c :: rest) || containsDemChars rest

/-- Python `'dem' in s` (substring containment), as used by
`create_geotiff`. -/
def containsDem (s : String) : Bool :=
  containsDemChars s.data

/-- POSIX `os.path.join(a, b)`: an absolute `b` discards `a`; otherwise the
parts are glued with a single separator unless `a` is empty or already ends
with one. -/
def ospath_join (a b : String) : String :=
  if b.data.head? = some '/' then b
  else if a.data = [] ∨ a.data.getLast? = some '/' then a ++ b
  else a ++ "/" ++ b

/-- POSIX `os.path.basename(p)`: everything after the last separator (empty
when `p` ends with a separator). -/
def ospath_basename (p : String) : String :=
  String.mk ((p.data.reverse.takeWhile (fun c => !(c == '/'))).reverse)

/-! ## `convert_to_geotiff.py`: data model -/

/-- A rasterio affine transform `Affine(a, b, c, d, e, f)`.  Coefficients
are modelled as rationals. -/
structure Affine where
  a : ℚ
  b : ℚ
  c : ℚ
  d : ℚ
  e : ℚ
  f : ℚ
deriving DecidableEq

/-- `Affine.identity()` of the affine library: `(1, 0, 0, 0, 1, 0)`. -/
def Affine.identity : Affine := ⟨1, 0, 0, 0, 1, 0⟩

/-- `transform.is_identity` of the affine library. -/
def Affine.is_identity (t : Affine) : Bool := t = Affine.identity

/-- A rasterio metadata dictionary (`src.meta`): driver, sample type,
nodata sentinel, grid size, band count, coordinate reference system and
affine transform. -/
structure Meta where
  driver : String
  dtype : String
  nodata : Option ℚ
  width : Nat
  height : Nat
  count : Nat
  crs : Option String
  transform : Affine
deriving DecidableEq

/-- Metadata part of `create_geotiff(input_file, output_file,
dem_file_path, band)`: the metadata written to the output GeoTIFF.  The
code copies `src.meta`, then overrides `count/dtype/driver` and either
takes `crs`/`transform` from the opened DEM raster (when `dem_file_path`
is truthy and the string `'dem'` does not occur in `input_file`) or
re-installs the source raster's own `crs`/`transform`. -/
def create_geotiff_meta (input_file : String) (dem_file_path : Option String)
    (src dem : Meta) : Meta :=
  if pyTruthy dem_file_path && !containsDem input_file then
    { src with count := 1, dtype := "float32", driver := "GTiff",
               crs := dem.crs, transform := dem.transform }
  else
    { src with count := 1, dtype := "float32", driver := "GTiff",
               crs := src.crs, transform := src.transform }

/-! ## `convert_to_geotiff.py`: file discovery and validation -/

/-- The DEM filename predicate `file.endswith('dem.wgs84.vrt')`. -/
def isDemVrt (f : String) : Bool := pyEndsWith f "dem.wgs84.vrt"

/-- `find_dem_file(base_dir)`: scan the directory listing in order and
return the first file whose name ends with `dem.wgs84.vrt`, joined to
`base_dir`; raise `ValueError` when none matches. -/
def find_dem_file (base_dir : String) : List String → Except String String
  | [] => .error ("❌ Required WGS84 DEM file not found in: " ++ base_dir)
  | f :: rest =>
    if isDemVrt f then .ok (ospath_join base_dir f)
    else find_dem_file base_dir rest

/-- Filesystem oracles for the existence tests of
`find_interferogram_file` (`os.path.isdir`, `os.path.exists`). -/
structure FS where
  isdir : String → Bool
  path_exists : String → Bool

/-- `find_interferogram_file(base_dir)`: expects the fixed relative path
`interferogram/filt_topophase.unw.vrt`; a missing subdirectory and a
missing file are distinct errors. -/
def find_interferogram_file (base_dir : String) (fs : FS) : Except String String :=
  let interferogram_dir := ospath_join base_dir "interferogram"
  if !fs.isdir interferogram_dir then
    .error ("⚠️ Interferogram directory not found at: " ++ interferogram_dir)
  else
    let unw_file := ospath_join interferogram_dir "filt_topophase.unw.vrt"
    if fs.path_exists unw_file then .ok unw_file
    else .error ("❌ Required unwrapped interferogram file not found: " ++ unw_file)

/-- The role-to-path mapping built by the locator; a Python dict that may
lack either key, hence `Option`-valued fields. -/
structure VrtFiles where
  dem : Option String
  interferogram : Option String
deriving DecidableEq

/-- `add_dem_and_interferogram_to_vrt(base_dir)`: populate both roles,
propagating the first discovery error. -/
def add_dem_and_interferogram_to_vrt (base_dir : String) (listing : List String)
    (fs : FS) : Except String VrtFiles :=
  match find_dem_file base_dir listing with
  | .error e => .error e
  | .ok demPath =>
    match find_interferogram_file base_dir fs with
    | .error e => .error e
    | .ok unwPath => .ok { dem := some demPath, interferogram := some unwPath }

/-- `validate_vrt_files(vrt_files)`: for each required role in dict order
(`dem` first, then `interferogram`), raise when the role is absent or its
basename fails the role's predicate; return `True` otherwise. -/
def validate_vrt_files (vrt_files : VrtFiles) : Except String Bool :=
  match vrt_files.dem with
  | none => .error "❌ Dem .vrt file not found"
  | some p =>
    if isDemVrt (ospath_basename p) then
      match vrt_files.interferogram with
      | none => .error "❌ Interferogram .vrt file not found"
      | some q =>
        if ospath_basename q = "filt_topophase.unw.vrt" then .ok true
        else .error ("❌ Invalid interferogram file: " ++ q)
    else .error ("❌ Invalid dem file: " ++ p)

/-- `find_vrt_files(base_dir)`: discovery followed by the defensive
re-validation; the `raise` on a `False` return of the validator is kept
even though the validator never returns `False`. -/
def find_vrt_files (base_dir : String) (listing : List String) (fs : FS) :
    Except String VrtFiles :=
  match add_dem_and_interferogram_to_vrt base_dir listing fs with
  | .error e => .error e
  | .ok vrt_files =>
    match validate_vrt_files vrt_files with
    | .error e => .error e
    | .ok b => if b then .ok vrt_files else .error "❌ Required .vrt files not found"

/-! ## `convert_to_geotiff.py`: output paths and batch conversion -/

/-- The three output paths returned by `generate_output_file_names`. -/
structure OutputFiles where
  dem : String
  interferogram : String
  correlation : String
deriving DecidableEq

/-- `os.makedirs(path, exist_ok)` on an explicit list of existing
directories: without `exist_ok` an existing directory is a
`FileExistsError`; with it the call is a no-op. -/
def os_makedirs (dirs : List String) (path : String) (exist_ok : Bool) :
    Except String (List String) :=
  if dirs.contains path then
    if exist_ok then .ok dirs else .error ("FileExistsError: " ++ path)
  else .ok (path :: dirs)

/-- `generate_output_file_names(vrt_files, output_dir, input_dir)`: derive
the scene name from the input directory, create the scene output directory
with `exist_ok=True`, and return the three fixed role paths.  `vrt_files`
is accepted but never read.  The directory list is threaded explicitly. -/
def generate_output_file_names (_vrt_files : VrtFiles) (output_dir input_dir : String)
    (dirs : List String) : Except String (OutputFiles × List String) :=
  let scene_name := ospath_basename input_dir
  let scene_output_dir := ospath_join output_dir scene_name
  match os_makedirs dirs scene_output_dir true with
  | .error e => .error e
  | .ok dirs1 =>
    .ok ({ dem := ospath_join scene_output_dir (scene_name ++ "_dem.tif"),
           interferogram := ospath_join scene_output_dir (scene_name ++ "_interferogram.tif"),
           correlation := ospath_join scene_output_dir (scene_name ++ "_correlation.tif") },
         dirs1)

/-- The validated role-to-path mapping as used by `convert_files` (both
keys present; the only caller reaches it after validation). -/
structure VrtPaths where
  dem : String
  interferogram : String
deriving DecidableEq

/-- Arguments of one `create_geotiff` call issued by `convert_files`. -/
structure ConvJob where
  input_file : String
  output_file : String
  dem_file_path : String
  band : Nat
deriving DecidableEq

/-- First conversion job: DEM, band 1, self-referenced. -/
def demJob (v : VrtPaths) (o : OutputFiles) : ConvJob := ⟨v.dem, o.dem, v.dem, 1⟩

/-- Second conversion job: interferogram, band 1, DEM-referenced. -/
def interferogramJob (v : VrtPaths) (o : OutputFiles) : ConvJob :=
  ⟨v.interferogram, o.interferogram, v.dem, 1⟩

/-- Third conversion job: correlation map = interferogram band 2,
DEM-referenced. -/
def correlationJob (v : VrtPaths) (o : OutputFiles) : ConvJob :=
  ⟨v.interferogram, o.correlation, v.dem, 2⟩

/-- `convert_files(vrt_files, output_files)`: run the three
`create_geotiff` jobs in order, each inside its own `try/except` that turns
any exception into a logged failure line.  `run` models the effectful
`create_geotiff` call; the function is total (it never raises) and returns
the three emitted log lines. -/
def convert_files (v : VrtPaths) (o : OutputFiles)
    (run : ConvJob → Except String Unit) : List String :=
  let l1 := match run (demJob v o) with
    | .ok _ => "✅ DEM conversion completed"
    | .error e => "❌ Error occurred while converting DEM: " ++ e
  let l2 := match run (interferogramJob v o) with
    | .ok _ => "✅ Interferogram conversion completed"
    | .error e => "❌ Error occurred while converting interferogram: " ++ e
  let l3 := match run (correlationJob v o) with
    | .ok _ => "✅ Correlation map conversion completed"
    | .error e => "❌ Error occurred while converting correlation map: " ++ e
  [l1, l2, l3]

/-! ## `plot_complex_data.py`: data model -/

/-- Raster bounds (`src.bounds`): left, bottom, right, top. -/
structure Bounds where
  left : ℚ
  bottom : ℚ
  right : ℚ
  top : ℚ
deriving DecidableEq

/-- The georeferencing triple read from an opened raster: affine
transform, bounds and coordinate reference system (`None` when absent). -/
structure Georef where
  transform : Affine
  bounds : Bounds
  crs : Option String
deriving DecidableEq

/-- Lines 27 to 37 of `plot_complex_data`: keep the source raster's own
transform/bounds/crs unless the transform is the identity (signalling
missing referencing) and a DEM file argument is truthy, in which case all
three are taken from the DEM raster. -/
def resolve_georef (src : Georef) (dem_file : Option String) (dem : Georef) : Georef :=
  if src.transform.is_identity && pyTruthy dem_file then dem else src

/-- One pixel of the complex band: either a not-a-number value (any NaN
component) or a finite complex number with rational parts. -/
inductive PVal where
  | nan : PVal
  | num (re im : ℚ) : PVal
deriving DecidableEq

/-- NumPy elementwise `data == 0` for one entry: NaN compares unequal to
everything, a finite complex value is zero when both parts are. -/
def pyEqZero : PVal → Bool
  | .nan => false
  | .num re im => re == 0 && im == 0

/-- One entry of `data[data == 0] = np.nan`: exact zeroes become NaN. -/
def zeroToNan (v : PVal) : PVal :=
  if pyEqZero v then .nan else v

/-- Whether `np.abs` of the entry is NaN: `np.abs` of a NaN-component
complex value is NaN, and of a finite complex value is a finite
non-negative real. -/
def npAbsIsNaN : PVal → Bool
  | .nan => true
  | .num _ _ => false

/-- One entry of band 3 of the written GeoTIFF: the code writes
`(~np.isnan(amplitude)).astype(np.uint8)`, i.e. `0` where the amplitude is
NaN and `1` elsewhere. -/
def maskEntry (v : PVal) : Nat :=
  if npAbsIsNaN v then 0 else 1

/-- The source raster opened by the plotter: band-1 pixel data, its
georeferencing, and whether the band's dtype supports NaN (the guarded
`try/except` around the zero substitution is a no-op exactly when it does
not). -/
structure SrcRaster where
  data : List (List PVal)
  georef : Georef
  supportsNaN : Bool

/-- The Python error relevant here: `None + str` raises `TypeError`. -/
inductive PyError where
  | typeError
deriving DecidableEq

/-- Python `title + suffix` for an optional `title`: concatenation when a
string was given, `TypeError` when `title` is `None`. -/
def pyStrAddTitle : Option String → String → Except PyError String
  | none, _ => .error .typeError
  | some t, s => .ok (t ++ s)

/-- The `.tif` → `.png` rewriting done by Python
`output_filename.replace('.tif', '.png')`: scan left to right, replacing
every non-overlapping occurrence of `.tif` by `.png`.  The four-character
comparison is written with the last character first; the order of the
conjuncts is immaterial. -/
def tifToPng : List Char → List Char
  | [] => []
  | c1 :: c2 :: c3 :: c4 :: rest =>
    if c4 = 'f' ∧ c3 = 'i' ∧ c2 = 't' ∧ c1 = '.' then
      '.' :: 'p' :: 'n' :: 'g' :: tifToPng rest
    else c1 :: tifToPng (c2 :: c3 :: c4 :: rest)
  | c :: rest => c :: tifToPng rest

/-- Whether a character list contains the substring `.tif`. -/
def hasTif : List Char → Bool
  | c1 :: c2 :: c3 :: c4 :: rest =>
    if c4 = 'f' ∧ c3 = 'i' ∧ c2 = 't' ∧ c1 = '.' then true
    else hasTif (c2 :: c3 :: c4 :: rest)
  | _ => false

/-- Line 85 of `plot_complex_data`:
`png_filename = output_filename.replace('.tif', '.png')`. -/
def png_filename (output_filename : String) : String :=
  String.mk (tifToPng output_filename.data)

/-- A file written by the plotter: the quicklook PNG, or the three-band
GeoTIFF with its georeferencing and its band-3 validity mask. -/
inductive FileWrite where
  | png (path : String)
  | geotiff (path : String) (transform : Affine) (crs : String)
      (band3 : List (List Nat))
deriving DecidableEq

/-- `plot_complex_data(raster_filename, output_filename, dem_file, title,
...)`: the opened source raster and the DEM raster's georeferencing are
passed directly instead of being re-read from disk, and the purely visual
parameters (aspect, datamin, datamax, interpolation, colorbar) are
dropped because they do not influence the written files.  Returns the
files written in order together with the error that aborted the call, if
any: composing a panel title with `title=None` raises `TypeError` before
anything is written. -/
def plot_complex_data (output_filename : String) (dem_file : Option String)
    (title : Option String) (src : SrcRaster) (dem : Georef) :
    List FileWrite × Option PyError :=
  let georef := resolve_georef src.georef dem_file dem
  let data1 := if src.supportsNaN then src.data.map (fun row => row.map zeroToNan)
               else src.data
  match pyStrAddTitle title " (amplitude)" with
  | .error e => ([], some e)
  | .ok _ =>
    match pyStrAddTitle title " (phase [rad])" with
    | .error e => ([], some e)
    | .ok _ =>
      let band3 := data1.map (fun row => row.map maskEntry)
      let crsUsed := georef.crs.getD "EPSG:4326"
      ([FileWrite.png (png_filename output_filename),
        FileWrite.geotiff output_filename georef.transform crsUsed band3], none)

/-! ## Helper lemmas -/

/-- For arguments other than the degenerate empty-string path, Python
truthiness of an optional string is just presence. -/
lemma pyTruthy_eq_isSome (o : Option String) (h : o ≠ some "") :
    pyTruthy o = o.isSome := by
  cases o with
  | none => rfl
  | some s =>
    have hs : s ≠ "" := fun hs => h (by rw [hs])
    simp [pyTruthy, hs]

/-- Band-3 value of an entry after the zero-to-NaN substitution. -/
lemma maskEntry_zeroToNan (v : PVal) :
    maskEntry (zeroToNan v) = if v = PVal.nan ∨ pyEqZero v = true then 0 else 1 := by
  cases v with
  | nan => rfl
  | num re im =>
    by_cases h : pyEqZero (PVal.num re im) = true
    · simp [zeroToNan, h, maskEntry, npAbsIsNaN]
    · simp [zeroToNan, h, maskEntry, npAbsIsNaN]

/-- The substituted entry is NaN exactly for originally-NaN or
exactly-zero entries. -/
lemma zeroToNan_eq_nan (v : PVal) :
    zeroToNan v = PVal.nan ↔ (v = PVal.nan ∨ pyEqZero v = true) := by
  cases v with
  | nan => simp [zeroToNan, pyEqZero]
  | num re im =>
    by_cases h : pyEqZero (PVal.num re im) = true <;> simp [zeroToNan, h]

/-- Band-3 value of an entry when the substitution was skipped. -/
lemma maskEntry_eq (v : PVal) :
    maskEntry v = if v = PVal.nan then 0 else 1 := by
  cases v with
  | nan => rfl
  | num re im => simp [maskEntry, npAbsIsNaN]

/-! ## C10: a missing title aborts the plotter before any file is written -/

/-- C10: if `plot_complex_data` is called with `title` left at its default
`None`, composing the amplitude panel title raises `TypeError` and the
call produces no file at all: neither the quicklook PNG nor the three-band
GeoTIFF is written. -/
theorem plot_complex_data_none_title (output_filename : String)
    (dem_file : Option String) (src : SrcRaster) (dem : Georef) :
    plot_complex_data output_filename dem_file none src dem
      = ([], some PyError.typeError) := rfl

/-! ## C5: the output path builder returns the three fixed scene paths -/

/-- C5: `generate_output_file_names` always succeeds and returns exactly
the three paths `output_dir/scene_name/{scene_name}_{role}.tif` for the
roles dem, interferogram and correlation, where `scene_name` is the final
path component (`os.path.basename`) of the input directory; the result is
independent of the role-to-path mapping argument and of the pre-existing
directories. -/
theorem generate_output_file_names_paths (vrt : VrtFiles)
    (output_dir input_dir : String) (dirs : List String) :
    ∃ dirs1, generate_output_file_names vrt output_dir input_dir dirs
      = .ok ({ dem := ospath_join (ospath_join output_dir (ospath_basename input_dir))
                        (ospath_basename input_dir ++ "_dem.tif"),
               interferogram := ospath_join (ospath_join output_dir (ospath_basename input_dir))
                        (ospath_basename input_dir ++ "_interferogram.tif"),
               correlation := ospath_join (ospath_join output_dir (ospath_basename input_dir))
                        (ospath_basename input_dir ++ "_correlation.tif") },
             dirs1) := by
  unfold generate_output_file_names os_makedirs
  by_cases hc : ospath_join output_dir (ospath_basename input_dir) ∈ dirs <;>
    simp [hc]

/-! ## C6: the output path builder is idempotent -/

/-- C6: calling `generate_output_file_names` twice with identical
arguments yields the same path dictionary both times, and the second call
does not fail on the already existing scene output directory (the
directory list is unchanged after the first call). -/
theorem generate_output_file_names_idem (vrt : VrtFiles)
    (output_dir input_dir : String) (dirs : List String) :
    ∃ paths dirs1,
      generate_output_file_names vrt output_dir input_dir dirs = .ok (paths, dirs1) ∧
      generate_output_file_names vrt output_dir input_dir dirs1 = .ok (paths, dirs1) := by
  by_cases hc : ospath_join output_dir (ospath_basename input_dir) ∈ dirs
  · refine ⟨{ dem := ospath_join (ospath_join output_dir (ospath_basename input_dir))
                (ospath_basename input_dir ++ "_dem.tif"),
              interferogram := ospath_join (ospath_join output_dir (ospath_basename input_dir))
                (ospath_basename input_dir ++ "_interferogram.tif"),
              correlation := ospath_join (ospath_join output_dir (ospath_basename input_dir))
                (ospath_basename input_dir ++ "_correlation.tif") },
            dirs, ?_, ?_⟩ <;>
      simp [generate_output_file_names, os_makedirs, hc]
  · refine ⟨{ dem := ospath_join (ospath_join output_dir (ospath_basename input_dir))
                (ospath_basename input_dir ++ "_dem.tif"),
              interferogram := ospath_join (ospath_join output_dir (ospath_basename input_dir))
                (ospath_basename input_dir ++ "_interferogram.tif"),
              correlation := ospath_join (ospath_join output_dir (ospath_basename input_dir))
                (ospath_basename input_dir ++ "_correlation.tif") },
            ospath_join output_dir (ospath_basename input_dir) :: dirs, ?_, ?_⟩ <;>
      simp [generate_output_file_names, os_makedirs, hc]

/-! ## C2: the raster converter's output metadata -/

/-- C2: for every `create_geotiff` call whose optional DEM path is not the
degenerate empty string, the output metadata has band count 1, sample type
`float32` and driver `GTiff`; both the CRS and the transform come from the
DEM raster when `dem_file_path` is provided and `'dem'` does not occur in
`input_file`, and both come from the input raster itself in every other
case — never one from each. -/
theorem create_geotiff_meta_spec (input_file : String)
    (dem_file_path : Option String) (src dem : Meta)
    (hne : dem_file_path ≠ some "") :
    (create_geotiff_meta input_file dem_file_path src dem).count = 1 ∧
    (create_geotiff_meta input_file dem_file_path src dem).dtype = "float32" ∧
    (create_geotiff_meta input_file dem_file_path src dem).driver = "GTiff" ∧
    ((dem_file_path.isSome = true ∧ containsDem input_file = false) →
      (create_geotiff_meta input_file dem_file_path src dem).crs = dem.crs ∧
      (create_geotiff_meta input_file dem_file_path src dem).transform = dem.transform) ∧
    (¬(dem_file_path.isSome = true ∧ containsDem input_file = false) →
      (create_geotiff_meta input_file dem_file_path src dem).crs = src.crs ∧
      (create_geotiff_meta input_file dem_file_path src dem).transform = src.transform) := by
  unfold create_geotiff_meta
  rw [pyTruthy_eq_isSome _ hne]
  cases hs : dem_file_path.isSome <;> cases hd : containsDem input_file <;>
    simp [hs, hd]

/-- Witness for C2 at a concrete call: converting the interferogram with a
DEM reference adopts the DEM's CRS and transform, and the output is a
single-band float32 GTiff. -/
theorem create_geotiff_meta_spec_witness :
    (create_geotiff_meta "/b/interferogram/filt_topophase.unw.vrt"
        (some "/b/x_dem.wgs84.vrt")
        { driver := "VRT", dtype := "float64", nodata := none, width := 4, height := 3,
          count := 2, crs := none, transform := Affine.identity }
        { driver := "VRT", dtype := "int16", nodata := some 0, width := 4, height := 3,
          count := 1, crs := some "EPSG:4326",
          transform := ⟨1/360, 0, 136, 0, -1/360, 38⟩ }).count = 1 ∧
    (create_geotiff_meta "/b/interferogram/filt_topophase.unw.vrt"
        (some "/b/x_dem.wgs84.vrt")
        { driver := "VRT", dtype := "float64", nodata := none, width := 4, height := 3,
          count := 2, crs := none, transform := Affine.identity }
        { driver := "VRT", dtype := "int16", nodata := some 0, width := 4, height := 3,
          count := 1, crs := some "EPSG:4326",
          transform := ⟨1/360, 0, 136, 0, -1/360, 38⟩ }).crs = some "EPSG:4326" := by
  have h := create_geotiff_meta_spec "/b/interferogram/filt_topophase.unw.vrt"
    (some "/b/x_dem.wgs84.vrt")
    { driver := "VRT", dtype := "float64", nodata := none, width := 4, height := 3,
      count := 2, crs := none, transform := Affine.identity }
    { driver := "VRT", dtype := "int16", nodata := some 0, width := 4, height := 3,
      count := 1, crs := some "EPSG:4326",
      transform := ⟨1/360, 0, 136, 0, -1/360, 38⟩ }
    (by decide)
  exact ⟨h.1, (h.2.2.2.1 ⟨rfl, by decide⟩).1⟩

/-! ## C8: the plotter's georeferencing substitution -/

/-- C8: in `plot_complex_data`, the DEM raster's transform, bounds and CRS
replace the source's exactly when the source transform is the identity and
a DEM file argument (other than the degenerate empty string) is supplied;
in every other case the source's own georeferencing triple is used
unchanged. -/
theorem resolve_georef_spec (src : Georef) (dem_file : Option String)
    (dem : Georef) (hne : dem_file ≠ some "") :
    ((src.transform.is_identity = true ∧ dem_file.isSome = true) →
      resolve_georef src dem_file dem = dem) ∧
    (¬(src.transform.is_identity = true ∧ dem_file.isSome = true) →
      resolve_georef src dem_file dem = src) := by
  unfold resolve_georef
  rw [pyTruthy_eq_isSome _ hne]
  cases hid : src.transform.is_identity <;> cases hs : dem_file.isSome <;>
    simp [hid, hs]

/-- Witness for C8 at a concrete call: an identity-transform source with a
DEM supplied adopts the DEM's whole georeferencing triple. -/
theorem resolve_georef_spec_witness :
    resolve_georef
        { transform := Affine.identity, bounds := ⟨0, 0, 4, 3⟩, crs := none }
        (some "/b/x_dem.wgs84.vrt")
        { transform := ⟨1/360, 0, 136, 0, -1/360, 38⟩,
          bounds := ⟨136, 36, 137, 38⟩, crs := some "EPSG:4326" }
      = { transform := ⟨1/360, 0, 136, 0, -1/360, 38⟩,
          bounds := ⟨136, 36, 137, 38⟩, crs := some "EPSG:4326" } :=
  (resolve_georef_spec
      { transform := Affine.identity, bounds := ⟨0, 0, 4, 3⟩, crs := none }
      (some "/b/x_dem.wgs84.vrt")
      { transform := ⟨1/360, 0, 136, 0, -1/360, 38⟩,
        bounds := ⟨136, 36, 137, 38⟩, crs := some "EPSG:4326" }
      (by decide)).1 ⟨by decide, rfl⟩

/-! ## C3: the batch converter attempts every job and never raises -/

/-- C3: `convert_files` is a total function (it never raises to its
caller), always emits exactly three log lines — one per conversion job —
and the log lines of the second and third jobs depend only on the outcome
of their own `create_geotiff` call: two effect interpretations that agree
on the interferogram and correlation jobs produce the same last two lines,
whatever each does on the DEM job. -/
theorem convert_files_spec (v : VrtPaths) (o : OutputFiles)
    (run run' : ConvJob → Except String Unit)
    (h2 : run (interferogramJob v o) = run' (interferogramJob v o))
    (h3 : run (correlationJob v o) = run' (correlationJob v o)) :
    (convert_files v o run).length = 3 ∧
    List.drop 1 (convert_files v o run) = List.drop 1 (convert_files v o run') := by
  unfold convert_files
  rw [h2, h3]
  simp

/-- Concrete role-to-path mapping for the C3 witness. -/
def v0 : VrtPaths :=
  { dem := "/b/x_dem.wgs84.vrt",
    interferogram := "/b/interferogram/filt_topophase.unw.vrt" }

/-- Concrete output file set for the C3 witness. -/
def o0 : OutputFiles :=
  { dem := "/o/s/s_dem.tif", interferogram := "/o/s/s_interferogram.tif",
    correlation := "/o/s/s_correlation.tif" }

/-- Effect interpretation where the DEM source file is missing and the
other two jobs succeed. -/
def run0 : ConvJob → Except String Unit := fun j =>
  if j = demJob v0 o0 then .error "No such file or directory" else .ok ()

/-- Effect interpretation where every job succeeds. -/
def run1 : ConvJob → Except String Unit := fun _ => .ok ()

/-- Witness for C3: with the DEM input missing, the batch still logs three
lines and the interferogram/correlation lines equal those of a run whose
DEM job succeeded. -/
theorem convert_files_spec_witness :
    (convert_files v0 o0 run0).length = 3 ∧
    List.drop 1 (convert_files v0 o0 run0) = List.drop 1 (convert_files v0 o0 run1) :=
  convert_files_spec v0 o0 run0 run1 rfl rfl

/-! ## C4: zero substitution and the band-3 validity mask -/

/-- C4: with a title supplied, `plot_complex_data` writes the quicklook
PNG and the three-band GeoTIFF, and band 3 of the GeoTIFF is `0` exactly
at the entries whose amplitude is NaN after the guarded zero substitution
— the originally-NaN entries, plus the exactly-zero entries when the
dtype supports NaN (when it does not, the substitution is skipped and
zero entries keep mask value `1`) — and `1` at every other entry. -/
theorem plot_complex_data_band3 (output_filename : String)
    (dem_file : Option String) (t : String) (src : SrcRaster) (dem : Georef) :
    plot_complex_data output_filename dem_file (some t) src dem =
      ([FileWrite.png (png_filename output_filename),
        FileWrite.geotiff output_filename
          (resolve_georef src.georef dem_file dem).transform
          ((resolve_georef src.georef dem_file dem).crs.getD "EPSG:4326")
          (src.data.map (fun row => row.map (fun v =>
            if v = PVal.nan ∨ (src.supportsNaN = true ∧ pyEqZero v = true)
            then 0 else 1)))],
       none) := by
  unfold plot_complex_data
  cases hs : src.supportsNaN <;>
    simp [pyStrAddTitle, hs, List.map_map, Function.comp_def,
          maskEntry_zeroToNan, maskEntry_eq, zeroToNan_eq_nan]

/-! ## C9: the validator raises on mismatches and only ever returns True -/

/-- C9: `validate_vrt_files` succeeds exactly when the `dem` entry is
present with a basename ending in `dem.wgs84.vrt` and the `interferogram`
entry is present with basename exactly `filt_topophase.unw.vrt`; a
successful return is always `True`, never `False`; and an entry whose
basename fails its role's predicate produces an error naming that role and
path. -/
theorem validate_vrt_files_spec (vrt : VrtFiles) :
    (validate_vrt_files vrt = .ok true ↔
      ((∃ p, vrt.dem = some p ∧ isDemVrt (ospath_basename p) = true) ∧
       (∃ q, vrt.interferogram = some q ∧
          ospath_basename q = "filt_topophase.unw.vrt"))) ∧
    (∀ b, validate_vrt_files vrt = .ok b → b = true) ∧
    (∀ p, vrt.dem = some p → isDemVrt (ospath_basename p) = false →
      validate_vrt_files vrt = .error ("❌ Invalid dem file: " ++ p)) ∧
    (∀ p q, vrt.dem = some p → isDemVrt (ospath_basename p) = true →
      vrt.interferogram = some q →
      ospath_basename q ≠ "filt_topophase.unw.vrt" →
      validate_vrt_files vrt = .error ("❌ Invalid interferogram file: " ++ q)) := by
  obtain ⟨d, g⟩ := vrt
  cases d with
  | none => simp [validate_vrt_files]
  | some p =>
    by_cases hp : isDemVrt (ospath_basename p) = true
    · cases g with
      | none => simp [validate_vrt_files, hp]
      | some q =>
        by_cases hq : ospath_basename q = "filt_topophase.unw.vrt"
        · simp [validate_vrt_files, hp, hq]
        · simp [validate_vrt_files, hp, hq]
    · cases g with
      | none => simp [validate_vrt_files, hp]
      | some q => simp [validate_vrt_files, hp]

/-- Witness for C9 at a concrete mapping: a `dem` entry whose basename
does not end in `dem.wgs84.vrt` yields the invalid-dem error naming the
path. -/
theorem validate_vrt_files_spec_witness :
    validate_vrt_files
        { dem := some "/b/topo.vrt",
          interferogram := some "/b/filt_topophase.unw.vrt" }
      = .error ("❌ Invalid dem file: " ++ "/b/topo.vrt") :=
  (validate_vrt_files_spec
      { dem := some "/b/topo.vrt",
        interferogram := some "/b/filt_topophase.unw.vrt" }).2.2.1
    "/b/topo.vrt" rfl rfl

/-! ## C1: the locator on zero or duplicate DEM matches -/

/-- Zero matches in the listing make `find_dem_file` raise the
file-not-found error. -/
lemma find_dem_file_none (base_dir : String) (listing : List String)
    (h : List.find? isDemVrt listing = none) :
    find_dem_file base_dir listing
      = .error ("❌ Required WGS84 DEM file not found in: " ++ base_dir) := by
  induction listing with
  | nil => rfl
  | cons f rest ih =>
    by_cases hf : isDemVrt f = true
    · rw [List.find?_cons_of_pos _ hf] at h
      exact absurd h (by simp)
    · rw [List.find?_cons_of_neg _ hf] at h
      simp only [find_dem_file]
      rw [if_neg hf]
      exact ih h

/-- `find_dem_file` returns the first match of the listing. -/
lemma find_dem_file_first (base_dir : String) (listing : List String)
    (f : String) (h : List.find? isDemVrt listing = some f) :
    find_dem_file base_dir listing = .ok (ospath_join base_dir f) := by
  induction listing with
  | nil => simp at h
  | cons g rest ih =>
    by_cases hg : isDemVrt g = true
    · rw [List.find?_cons_of_pos _ hg] at h
      injection h with h1
      subst h1
      simp only [find_dem_file]
      rw [if_pos hg]
    · rw [List.find?_cons_of_neg _ hg] at h
      simp only [find_dem_file]
      rw [if_neg hg]
      exact ih h

/-- C1 (amended): when no file of the base directory ends in
`dem.wgs84.vrt`, `find_dem_file` raises a file-not-found error and
`find_vrt_files` therefore returns no mapping; but when one or more files
match, `find_dem_file` silently returns the first match in listing order —
a duplicate DEM is not an error. -/
theorem find_dem_file_spec (base_dir : String) (listing : List String) :
    (List.find? isDemVrt listing = none →
      find_dem_file base_dir listing
        = .error ("❌ Required WGS84 DEM file not found in: " ++ base_dir)) ∧
    (∀ f, List.find? isDemVrt listing = some f →
      find_dem_file base_dir listing = .ok (ospath_join base_dir f)) ∧
    (List.find? isDemVrt listing = none → ∀ fs,
      find_vrt_files base_dir listing fs
        = .error ("❌ Required WGS84 DEM file not found in: " ++ base_dir)) := by
  refine ⟨fun h => find_dem_file_none base_dir listing h,
          fun f h => find_dem_file_first base_dir listing f h,
          fun h fs => ?_⟩
  unfold find_vrt_files add_dem_and_interferogram_to_vrt
  rw [find_dem_file_none base_dir listing h]

/-- Witness for C1 (amended): on a listing with two DEM matches the first
one is returned. -/
theorem find_dem_file_spec_witness :
    List.find? isDemVrt ["a_dem.wgs84.vrt", "b_dem.wgs84.vrt"]
      = some "a_dem.wgs84.vrt" ∧
    find_dem_file "/base" ["a_dem.wgs84.vrt", "b_dem.wgs84.vrt"]
      = .ok (ospath_join "/base" "a_dem.wgs84.vrt") :=
  ⟨rfl, (find_dem_file_spec "/base" ["a_dem.wgs84.vrt", "b_dem.wgs84.vrt"]).2.1
      "a_dem.wgs84.vrt" rfl⟩

/-- Filesystem oracle for the C1 counterexample: the interferogram
subdirectory and its unwrapped interferogram file exist. -/
def dupFS : FS :=
  { isdir := fun s => s == "/base/interferogram",
    path_exists := fun s => s == "/base/interferogram/filt_topophase.unw.vrt" }

/-- Counterexample to C1 as stated: a base directory with two files ending
in `dem.wgs84.vrt` does not make the locator raise; `find_vrt_files`
returns a complete role-to-path mapping, silently choosing the first DEM
match. -/
theorem find_vrt_files_duplicate_dem :
    List.countP isDemVrt ["a_dem.wgs84.vrt", "b_dem.wgs84.vrt"] = 2 ∧
    find_vrt_files "/base" ["a_dem.wgs84.vrt", "b_dem.wgs84.vrt"] dupFS
      = .ok { dem := some "/base/a_dem.wgs84.vrt",
              interferogram := some "/base/interferogram/filt_topophase.unw.vrt" } :=
  ⟨rfl, rfl⟩

/-! ## C7: the quicklook path is a blanket substring replacement -/

/-- Dropping the head of a `.tif`-free list keeps it `.tif`-free. -/
lemma hasTif_tail (c : Char) (cs : List Char) (h : hasTif (c :: cs) = false) :
    hasTif cs = false := by
  rcases cs with _ | ⟨c2, _ | ⟨c3, _ | ⟨c4, rest⟩⟩⟩
  · rfl
  · rfl
  · rfl
  · simp only [hasTif] at h
    split at h
    · simp at h
    · exact h

/-- The head of a `.tif`-free list is copied unchanged by the scan, even
with the suffix `.tif` appended: no occurrence of `.tif` can straddle the
head. -/
lemma tifToPng_cons (c : Char) (cs : List Char) (h : hasTif (c :: cs) = false) :
    tifToPng (c :: (cs ++ ['.', 't', 'i', 'f']))
      = c :: tifToPng (cs ++ ['.', 't', 'i', 'f']) := by
  rcases cs with _ | ⟨c2, _ | ⟨c3, _ | ⟨c4, rest⟩⟩⟩
  · rfl
  · rfl
  · rfl
  · have hcond : ¬(c4 = 'f' ∧ c3 = 'i' ∧ c2 = 't' ∧ c = '.') := by
      intro hc
      simp only [hasTif] at h
      rw [if_pos hc] at h
      exact absurd h (by simp)
    simp only [List.cons_append, tifToPng]
    rw [if_neg hcond]
    rfl

/-- Appending `.tif` to a `.tif`-free prefix and running the replacement
scan yields the prefix with `.png` appended. -/
lemma tifToPng_append (l : List Char) (h : hasTif l = false) :
    tifToPng (l ++ ['.', 't', 'i', 'f']) = l ++ ['.', 'p', 'n', 'g'] := by
  induction l with
  | nil => rfl
  | cons c cs ih =>
    rw [List.cons_append, tifToPng_cons c cs h, ih (hasTif_tail c cs h),
        List.cons_append]

/-- Counterexample to C7 as stated: `str.replace('.tif', '.png')` rewrites
every occurrence of `.tif`, so for an output path whose directory part
also contains `.tif` the quicklook path is not a sibling of the output —
the directory part changes too. -/
theorem png_filename_rewrites_directory :
    png_filename "/data.tif/scene.tif" = "/data.png/scene.png" ∧
    png_filename "/data.tif/scene.tif" ≠ "/data.tif/scene.png" :=
  ⟨rfl, by decide⟩

/-- C7 (amended): the quicklook path is the output path with every
occurrence of the substring `.tif` replaced by `.png`; in particular,
whenever `.tif` occurs only as the final extension, the quicklook path is
the sibling file differing only in extension. -/
theorem png_filename_sibling (t : String) (h : hasTif t.data = false) :
    png_filename (t ++ ".tif") = t ++ ".png" := by
  obtain ⟨l⟩ := t
  have hd : (String.mk l ++ ".tif").data = l ++ ['.', 't', 'i', 'f'] := rfl
  show String.mk (tifToPng (String.mk l ++ ".tif").data) = String.mk l ++ ".png"
  rw [hd, tifToPng_append l h]
  rfl

/-- Witness for C7 (amended) at a concrete path with a single `.tif`
occurrence. -/
theorem png_filename_sibling_witness :
    hasTif "/out/scene".data = false ∧
    png_filename ("/out/scene" ++ ".tif") = "/out/scene" ++ ".png" :=
  ⟨rfl, png_filename_sibling "/out/scene" rfl⟩
